import Mathlib

/-!
Verification development for the authentication core of the
Compliance-Automation-AI-Security frontend: the axios HTTP interceptors
(frontend/src/api/axios.config.ts), the authentication service layer
(frontend/src/api/services/auth.service.ts), the Pinia auth store with its
session timers (stores/auth.ts), and the two-factor verification view
(views/auth/TwoFactorAuth.vue).  Each definition is a shallow embedding of
the corresponding TypeScript function; theorems settle the testable
properties of the design document against these embeddings.
-/

namespace ComplianceAuth

/-! ## Browser storage model

The code keeps the token pair and the rememberMe marker in localStorage
(keys access_token, refresh_token, rememberMe, user) and, for ephemeral
sessions, the cached user in sessionStorage (key user). -/

/-- The localStorage keys touched by the authentication code. -/
structure LocalStorage where
  access_token : Option String
  refresh_token : Option String
  rememberMe : Bool
  user : Option String
  deriving Repr, DecidableEq

/-- The sessionStorage keys touched by the authentication code. -/
structure SessionStorage where
  user : Option String
  deriving Repr, DecidableEq

/-- Embeds getAccessToken of axios.config.ts: reads the access_token key. -/
def getAccessToken (ls : LocalStorage) : Option String :=
  ls.access_token

/-- Embeds getRefreshToken of axios.config.ts: reads the refresh_token key. -/
def getRefreshToken (ls : LocalStorage) : Option String :=
  ls.refresh_token

/-- Embeds setTokens of axios.config.ts: writes both tokens to localStorage,
with no dependence on the persistence mode. -/
def setTokens (access refresh : String) (ls : LocalStorage) : LocalStorage :=
  { ls with access_token := some access, refresh_token := some refresh }

/-- Embeds clearTokens of axios.config.ts: removes both tokens from
localStorage. -/
def clearTokens (ls : LocalStorage) : LocalStorage :=
  { ls with access_token := none, refresh_token := none }

/-! ## The axios interceptors -/

/-- Embeds the request interceptor of axios.config.ts: when an access token
is present in localStorage the Authorization header is set to the Bearer
form of it, otherwise the existing header value is left alone. -/
def attachAuthHeader (ls : LocalStorage) (auth : Option String) : Option String :=
  match getAccessToken ls with
  | some token => some ("Bearer " ++ token)
  | none => auth

/-- Outcome of the POST auth/refresh call made inside the response
interceptor: either a new access token or a failed request. -/
inductive RefreshOutcome where
  | ok (access : String)
  | err
  deriving Repr, DecidableEq

/-- Observable actions performed by the response interceptor. -/
inductive ApiAction where
  | refreshCall (refreshToken : String)
  | retryRequest (authHeader : String)
  | redirect (path : String)
  | rejectError
  deriving Repr, DecidableEq

/-- Embeds the response-error interceptor of axios.config.ts.  Arguments:
the HTTP status of the failed response, the retry flag stored on the
original request config, the current localStorage, and the outcome of the
refresh call should one be made.  Returns the updated localStorage, the
updated retry flag of the original request, and the list of actions
performed in order. -/
def responseErrorInterceptor (status : Nat) (retry : Bool) (ls : LocalStorage)
    (refresh : RefreshOutcome) : LocalStorage × Bool × List ApiAction :=
  match status == 401 && !retry, getRefreshToken ls with
  | true, some rt =>
    match refresh with
    | .ok access =>
        (setTokens access rt ls, true,
          [.refreshCall rt, .retryRequest ("Bearer " ++ access)])
    | .err =>
        (clearTokens ls, true,
          [.refreshCall rt, .redirect "/auth/login", .rejectError])
  | _, _ => (ls, retry, [.rejectError])

/-- The synchronous guard of the response interceptor deciding whether a
refresh call is issued: status 401, not yet retried, and a refresh token
present in localStorage.  The interceptor holds no other state, so every
concurrently failing request evaluates this guard independently. -/
def issuesRefreshCall (status : Nat) (retry : Bool) (ls : LocalStorage) : Bool :=
  status == 401 && !retry && (getRefreshToken ls).isSome

/-- A batch of responses failing at the same moment, each given by its
status and the retry flag of its request.  Every handler runs its
synchronous prefix up to the awaited refresh call before any refresh
response arrives, so the number of refresh calls issued is the number of
members passing the guard. -/
def concurrentRefreshCalls (ls : LocalStorage) (errors : List (Nat × Bool)) : Nat :=
  (errors.filter (fun e => issuesRefreshCall e.1 e.2 ls)).length

/-! ## The authentication service layer (api/services/auth.service.ts) -/

/-- Body of a response from POST auth/login as consumed by the frontend. -/
structure LoginResponse where
  requires2FA : Bool
  twoFactorToken : Option String
  access : Option String
  refresh : Option String
  user : Option String
  deriving Repr, DecidableEq

/-- Body of a response from POST auth/2fa/verify as consumed by the
frontend. -/
structure TwoFactorResponse where
  access : Option String
  refresh : Option String
  user : Option String
  deriving Repr, DecidableEq

/-- Embeds AuthService.login of auth.service.ts restricted to its storage
effect: tokens are saved (to localStorage, via setTokens) only when the
response does not request a second factor and carries both tokens. -/
def serviceLogin (resp : LoginResponse) (ls : LocalStorage) : LocalStorage :=
  if !resp.requires2FA then
    match resp.access, resp.refresh with
    | some a, some r => setTokens a r ls
    | _, _ => ls
  else ls

/-- Embeds AuthService.verifyTwoFactor of auth.service.ts restricted to its
storage effect: each token present in the response is written directly to
localStorage. -/
def serviceVerifyTwoFactor (resp : TwoFactorResponse) (ls : LocalStorage) :
    LocalStorage :=
  let ls1 := match resp.access with
    | some a => { ls with access_token := some a }
    | none => ls
  match resp.refresh with
  | some r => { ls1 with refresh_token := some r }
  | none => ls1

/-! ## The auth store (stores/auth.ts) -/

/-- Observable actions performed by the auth store: dispatches on the
timeout EventTarget (carrying the event name), console logging, and the
best-effort remote logout call. -/
inductive StoreAction where
  | dispatchBusEvent (name : String)
  | consoleLog (msg : String)
  | remoteLogout
  deriving Repr, DecidableEq, BEq

/-- The reactive state of the auth store.  The two setTimeout handles are
modelled as the absolute firing deadlines of the pending callbacks (none
when no callback is pending); sessionTimeout and deadlines are in
milliseconds of model time. -/
structure AuthStoreState where
  user : Option String
  isAuthenticated : Bool
  isLoading : Bool
  loginError : Option String
  sessionTimer : Option Nat
  sessionWarningTimer : Option Nat
  sessionWarningActive : Bool
  sessionTimeout : Nat
  twoFactorRequired : Bool
  twoFactorToken : Option String
  lastActivity : Nat
  listenersActive : Bool
  deriving Repr, DecidableEq

/-- The whole mutable world the store manipulates: its own state plus the
two storage partitions. -/
structure World where
  store : AuthStoreState
  ls : LocalStorage
  ss : SessionStorage
  deriving Repr, DecidableEq

/-- Embeds clearSessionTimers of stores/auth.ts: cancels both pending
timeouts and lowers the warning flag. -/
def clearSessionTimers (s : AuthStoreState) : AuthStoreState :=
  { s with sessionTimer := none, sessionWarningTimer := none,
           sessionWarningActive := false }

/-- Embeds startSessionTimers of stores/auth.ts: clears any pending timers,
then, only when the rememberMe marker is absent from localStorage, schedules
the warning callback 13 minutes from now and the timeout callback
sessionTimeout milliseconds from now. -/
def startSessionTimers (now : Nat) (ls : LocalStorage) (s : AuthStoreState) :
    AuthStoreState :=
  let s1 := clearSessionTimers s
  if ls.rememberMe then s1
  else
    { s1 with sessionWarningTimer := some (now + 13 * 60 * 1000),
              sessionTimer := some (now + s1.sessionTimeout) }

/-- Embeds resetSessionTimers of stores/auth.ts: records the activity time
and, when authenticated, restarts both timers from now. -/
def resetSessionTimers (now : Nat) (ls : LocalStorage) (s : AuthStoreState) :
    AuthStoreState :=
  let s1 := { s with lastActivity := now }
  if s1.isAuthenticated then startSessionTimers now ls s1 else s1

/-- Embeds handleUserActivity of stores/auth.ts, the listener attached to
mousedown, keydown, scroll and touchstart: timers are reset only when
authenticated and the warning period has not begun. -/
def handleUserActivity (now : Nat) (ls : LocalStorage) (s : AuthStoreState) :
    AuthStoreState :=
  if s.isAuthenticated && !s.sessionWarningActive then
    resetSessionTimers now ls s
  else s

/-- Embeds clearAuthState of stores/auth.ts: resets the reactive state,
cancels the timers, clears the tokens and removes the cached user and the
rememberMe marker from both storage partitions. -/
def clearAuthState (w : World) : World :=
  { store := clearSessionTimers
      { w.store with user := none, isAuthenticated := false,
                     loginError := none, twoFactorRequired := false,
                     twoFactorToken := none },
    ls := { clearTokens w.ls with user := none, rememberMe := false },
    ss := { user := none } }

/-- Embeds logout of stores/auth.ts: attempts the remote logout (failures
swallowed), then clears the local auth state, removes the activity
listeners, and dispatches the session-timeout event on the bus exactly when
the isSessionTimeout argument is true. -/
def logout (isSessionTimeout : Bool) (w : World) : World × List StoreAction :=
  let w1 := clearAuthState w
  let w2 := { w1 with store := { w1.store with listenersActive := false } }
  (w2, .remoteLogout ::
        (if isSessionTimeout then [StoreAction.dispatchBusEvent "session-timeout"]
         else []))

/-- Embeds the warning setTimeout callback inside startSessionTimers: the
callback raises the sessionWarningActive flag and logs; no event is
dispatched on the bus. -/
def warningTimerCallback (s : AuthStoreState) : AuthStoreState × List StoreAction :=
  ({ s with sessionWarningActive := true },
   [.consoleLog "Session warning activated - 2 minutes remaining"])

/-- Embeds the timeout setTimeout callback inside startSessionTimers: the
callback logs and performs logout with isSessionTimeout set. -/
def sessionTimerCallback (w : World) : World × List StoreAction :=
  let (w1, acts) := logout true w
  (w1, .consoleLog "Session timeout triggered" :: acts)

/-- Identifies one of the two pending setTimeout callbacks of the store. -/
inductive WhichTimer where
  | warning
  | timeout
  deriving Repr, DecidableEq

/-- The earliest pending timer whose deadline is at most tEnd, if any; with
equal deadlines the warning callback was scheduled first and runs first. -/
def earliestDue (tEnd : Nat) (s : AuthStoreState) : Option WhichTimer :=
  match s.sessionWarningTimer, s.sessionTimer with
  | some wd, some td =>
      if wd ≤ tEnd && wd ≤ td then some .warning
      else if td ≤ tEnd then some .timeout
      else if wd ≤ tEnd then some .warning
      else none
  | some wd, none => if wd ≤ tEnd then some .warning else none
  | none, some td => if td ≤ tEnd then some .timeout else none
  | none, none => none

/-- Fires one pending timer callback: a setTimeout callback runs once, so
its handle is consumed before the callback body executes. -/
def fireTimer (t : WhichTimer) (w : World) : World × List StoreAction :=
  match t with
  | .warning =>
      let (s1, acts) := warningTimerCallback
        { w.store with sessionWarningTimer := none }
      ({ w with store := s1 }, acts)
  | .timeout =>
      sessionTimerCallback { w with store := { w.store with sessionTimer := none } }

/-- Runs the world forward to model time tEnd with no user activity: the
pending timer callbacks fire in deadline order and their actions are
collected.  The fuel bounds the number of callbacks fired; two suffices for
any run since each handle is consumed when it fires. -/
def runUntil : Nat → Nat → World → World × List StoreAction
  | 0, _, w => (w, [])
  | fuel + 1, tEnd, w =>
    match earliestDue tEnd w.store with
    | none => (w, [])
    | some t =>
      let (w1, acts) := fireTimer t w
      let (w2, acts2) := runUntil fuel tEnd w1
      (w2, acts ++ acts2)

/-- Embeds the success path of the login action of stores/auth.ts after the
service call returned an authenticated (non-2FA) response: the user is
cached in the storage partition selected by rememberMe, the rememberMe
marker and the sessionTimeout duration are set accordingly, lastActivity is
stamped, and the timers and activity listeners are started.  The service
call itself (which stores the tokens) is serviceLogin. -/
def storeLoginSuccess (rememberMe : Bool) (userJson : String) (now : Nat)
    (w : World) : World :=
  let store1 := { w.store with user := some userJson, isAuthenticated := true }
  let (ls1, ss1) :=
    if rememberMe then
      ({ w.ls with user := some userJson, rememberMe := true }, w.ss)
    else
      ({ w.ls with rememberMe := false }, { user := some userJson : SessionStorage })
  let store2 := { store1 with
    sessionTimeout := if rememberMe then 7 * 24 * 60 * 60 * 1000 else 15 * 60 * 1000,
    lastActivity := now }
  let store3 := startSessionTimers now ls1 store2
  let store4 := { store3 with listenersActive := !ls1.rememberMe && store3.isAuthenticated }
  { store := store4, ls := ls1, ss := ss1 }

/-- Embeds the whole successful ephemeral or durable login pipeline: the
service stores the tokens (serviceLogin), then the store action caches the
user and starts supervision (storeLoginSuccess). -/
def fullLogin (rememberMe : Bool) (resp : LoginResponse) (userJson : String)
    (now : Nat) (w : World) : World :=
  let ls1 := serviceLogin resp w.ls
  storeLoginSuccess rememberMe userJson now { w with ls := ls1 }

/-- How many times a given action occurs in a recorded action list. -/
def countEvent (acts : List StoreAction) (a : StoreAction) : Nat :=
  (acts.filter (fun x => x == a)).length

/-- The store state at creation: signed out, ephemeral default timeout of 15
minutes, no timers. -/
def initStore : AuthStoreState :=
  { user := none, isAuthenticated := false, isLoading := false,
    loginError := none, sessionTimer := none, sessionWarningTimer := none,
    sessionWarningActive := false, sessionTimeout := 15 * 60 * 1000,
    twoFactorRequired := false, twoFactorToken := none, lastActivity := 0,
    listenersActive := false }

/-- A fresh world: initial store and empty storage partitions. -/
def initWorld : World :=
  { store := initStore,
    ls := { access_token := none, refresh_token := none, rememberMe := false,
            user := none },
    ss := { user := none } }

/-- The world right after a successful ephemeral (rememberMe false) login at
model time 0 with the given user record and token pair. -/
def ephemeralWorld (userJson access refresh : String) : World :=
  fullLogin false
    { requires2FA := false, twoFactorToken := none, access := some access,
      refresh := some refresh, user := some userJson }
    userJson 0 initWorld

/-! ## The two-factor verification view (views/auth/TwoFactorAuth.vue) -/

/-- The reactive state of the two-factor view: the six code slots, the
message and status flags, the attempt counter, the expiry countdown in
seconds, the resend cooldown in seconds, and the challenge token read from
the auth store. -/
structure TwoFactorView where
  verificationCode : List String
  hasError : Bool
  isSuccess : Bool
  isLoading : Bool
  errorMessage : String
  successMessage : String
  resendMessage : String
  remainingAttempts : Nat
  timeRemaining : Nat
  resendCooldown : Nat
  twoFactorToken : Option String
  deriving Repr, DecidableEq

/-- The six empty code slots. -/
def emptyCode : List String := ["", "", "", "", "", ""]

/-- The initial state of the view: 5 attempts, a 300 second countdown, no
cooldown, as initialized in the component setup. -/
def tfInitView (token : Option String) : TwoFactorView :=
  { verificationCode := emptyCode, hasError := false, isSuccess := false,
    isLoading := false, errorMessage := "", successMessage := "",
    resendMessage := "", remainingAttempts := 5, timeRemaining := 300,
    resendCooldown := 0, twoFactorToken := token }

/-- Embeds the isCodeComplete computed property: every slot is non-empty. -/
def isCodeComplete (v : TwoFactorView) : Bool :=
  v.verificationCode.all (fun digit => digit != "")

/-- Embeds clearErrorStates: lowers the error and success flags. -/
def clearErrorStates (v : TwoFactorView) : TwoFactorView :=
  { v with hasError := false, isSuccess := false }

/-- Embeds clearMessages: empties the three messages and lowers the
flags. -/
def clearMessages (v : TwoFactorView) : TwoFactorView :=
  clearErrorStates
    { v with errorMessage := "", successMessage := "", resendMessage := "" }

/-- Outcome of the awaited verify call inside verifyCode: success, an HTTP
429 lockout, a rejection carrying remainingAttempts, or any other
failure.  Message fields model the optional error string of the body. -/
inductive VerifyOutcome where
  | verified
  | lockedOut (msg : Option String)
  | invalidCode (remaining : Nat) (msg : Option String)
  | otherFailure (msg : Option String)
  deriving Repr, DecidableEq

/-- Observable actions performed by the view: the network calls and the
router navigations (navigations are scheduled via setTimeout, modelled
here only by their destination). -/
inductive ViewAction where
  | verifyRequest
  | resendRequest
  | navigateLater (path : String)
  | clearStoreTwoFactorToken
  deriving Repr, DecidableEq

/-- Embeds verifyCode of TwoFactorAuth.vue.  The guards run first: an
incomplete code or a submission already in flight is a silent no-op, and a
missing challenge token redirects to login without a call.  Otherwise the
verify network call is issued and the outcome drives the branches of the
try/catch: success schedules the dashboard redirect; 429 schedules token
clearing and the login redirect; a body carrying remainingAttempts copies
that count into the view, shows the error and empties the slots; any other
failure only shows the error. -/
def verifyCode (v : TwoFactorView) (outcome : VerifyOutcome) :
    TwoFactorView × List ViewAction :=
  if !isCodeComplete v || v.isLoading then (v, [])
  else
    match v.twoFactorToken with
    | none =>
        ({ v with errorMessage := "Session expired. Please login again." },
         [.navigateLater "/auth/login"])
    | some _ =>
      let v1 := clearMessages { v with isLoading := true }
      match outcome with
      | .verified =>
          ({ v1 with isSuccess := true,
                     successMessage := "Code verified successfully! Redirecting...",
                     isLoading := false },
           [.verifyRequest, .navigateLater "/dashboard"])
      | .lockedOut msg =>
          ({ v1 with hasError := true,
                     errorMessage := msg.getD "Too many attempts. Please try again later.",
                     isLoading := false },
           [.verifyRequest, .clearStoreTwoFactorToken, .navigateLater "/auth/login"])
      | .invalidCode remaining msg =>
          ({ v1 with hasError := true,
                     remainingAttempts := remaining,
                     errorMessage := msg.getD
                       ("Invalid code. " ++ toString remaining ++ " attempts remaining."),
                     verificationCode := emptyCode,
                     isLoading := false },
           [.verifyRequest])
      | .otherFailure msg =>
          ({ v1 with hasError := true,
                     errorMessage := msg.getD "Invalid verification code",
                     isLoading := false },
           [.verifyRequest])

/-- Outcome of the awaited resend call inside resendCode. -/
inductive ResendOutcome where
  | ok
  | err (msg : Option String)
  deriving Repr, DecidableEq

/-- Embeds resendCode of TwoFactorAuth.vue.  An active cooldown is a silent
no-op and a missing token redirects to login; otherwise the resend network
call is issued and, on success, the view resets remainingAttempts to 5, the
countdown to 300 seconds and the cooldown to 60 seconds, lowers the status
flags and empties the slots. -/
def resendCode (v : TwoFactorView) (outcome : ResendOutcome) :
    TwoFactorView × List ViewAction :=
  if v.resendCooldown > 0 then (v, [])
  else
    match v.twoFactorToken with
    | none =>
        ({ v with errorMessage := "Session expired. Please login again." },
         [.navigateLater "/auth/login"])
    | some _ =>
      match outcome with
      | .ok =>
          (clearErrorStates
            { v with resendMessage := "New verification code sent to your email.",
                     remainingAttempts := 5,
                     timeRemaining := 300,
                     resendCooldown := 60,
                     verificationCode := emptyCode },
           [.resendRequest])
      | .err msg =>
          ({ v with errorMessage := msg.getD "Failed to resend code" },
           [.resendRequest])

/-- Embeds one tick of the one-second interval installed by startTimer of
TwoFactorAuth.vue: while the counter is positive it is decremented; at zero
the interval is cancelled, the expiry error is shown and the login redirect
(with token clearing) is scheduled. -/
def tfTimerTick (v : TwoFactorView) : TwoFactorView × List ViewAction :=
  if v.timeRemaining > 0 then
    ({ v with timeRemaining := v.timeRemaining - 1 }, [])
  else
    ({ v with errorMessage := "Verification code has expired. Please login again.",
              hasError := true },
     [.clearStoreTwoFactorToken, .navigateLater "/auth/login"])

/-- The view state after n delivered interval ticks.  Ticks are delivered
by the host timer loop; a suspended process delivers no ticks while
suspended. -/
def tfTimerRun : Nat → TwoFactorView → TwoFactorView
  | 0, v => v
  | n + 1, v => tfTimerRun n (tfTimerTick v).1

/-- Modelled from the spec: the absolute-deadline countdown the design
requires (section 5), missing from the source, which instead decrements a
counter per delivered tick.  Remaining time is recomputed from the absolute
expiry against the current wall-clock time. -/
def wallClockRemaining (total elapsed : Nat) : Nat := total - elapsed

/-! ## Concrete fixtures used by the counterexamples and witnesses -/

/-- A localStorage snapshot holding a full token pair, as after a
successful ephemeral login. -/
def lsEx : LocalStorage :=
  { access_token := some "acc", refresh_token := some "ref",
    rememberMe := false, user := none }

/-- A pending two-factor view whose attempt counter has reached zero and
whose slots hold a freshly entered complete code. -/
def tfExhaustedView : TwoFactorView :=
  { tfInitView (some "challenge") with
      remainingAttempts := 0
      verificationCode := ["1", "2", "3", "4", "5", "6"] }

/-- A pending two-factor view mid-challenge: two attempts left, 100 seconds
left on the countdown, cooldown elapsed. -/
def tfMidView : TwoFactorView :=
  { tfInitView (some "challenge") with
      remainingAttempts := 2
      timeRemaining := 100 }

/-! ## Claims about the response interceptor -/

/-- Claim C1, counterexample: three calls failing with 401 at the same
moment, none retried yet and a refresh token present, issue three refresh
calls, not exactly one — the interceptor keeps no in-flight refresh that
concurrent callers could await. -/
theorem concurrent_401s_issue_three_refreshes :
    concurrentRefreshCalls lsEx [(401, false), (401, false), (401, false)] = 3 ∧
    concurrentRefreshCalls lsEx [(401, false), (401, false), (401, false)] ≠ 1 := by
  decide

/-- Claim C1, amended: every concurrently failing eligible call issues its
own refresh call — n concurrent 401 failures with a refresh token present
issue n refresh calls — and a handler issues a refresh call exactly when
its synchronous guard (401, not retried, refresh token present) passes. -/
theorem refresh_not_serialized (ls : LocalStorage) (n : Nat)
    (h : (getRefreshToken ls).isSome = true) :
    concurrentRefreshCalls ls (List.replicate n (401, false)) = n ∧
    ∀ status retry outcome,
      ((responseErrorInterceptor status retry ls outcome).2.2.any
          (fun a => match a with | .refreshCall _ => true | _ => false)) =
        issuesRefreshCall status retry ls := by
  constructor
  · induction n with
    | zero => rfl
    | succ n _ =>
      simp [concurrentRefreshCalls, List.replicate_succ, issuesRefreshCall, h]
  · intro status retry outcome
    unfold responseErrorInterceptor issuesRefreshCall
    cases hc : (status == 401 && !retry) with
    | false => simp [hc]
    | true =>
      cases hrt : getRefreshToken ls with
      | none => simp [hrt] at h
      | some rt => cases outcome <;> simp [hc, hrt]

/-- Claim C1, witness: the amended statement evaluated on the concrete
snapshot with three concurrent failures. -/
theorem refresh_not_serialized_witness :
    (getRefreshToken lsEx).isSome = true ∧
    (concurrentRefreshCalls lsEx (List.replicate 3 (401, false)) = 3 ∧
     ∀ status retry outcome,
      ((responseErrorInterceptor status retry lsEx outcome).2.2.any
          (fun a => match a with | .refreshCall _ => true | _ => false)) =
        issuesRefreshCall status retry lsEx) :=
  ⟨by decide, refresh_not_serialized lsEx 3 (by decide)⟩

/-- Claim C6, counterexample: a second 401 arriving on the already retried
request is merely rejected to the caller — the token store is untouched and
no redirect to the login entry point occurs, contradicting the claimed
fatal teardown. -/
theorem second_401_not_fatal :
    responseErrorInterceptor 401 true lsEx .err = (lsEx, true, [.rejectError]) ∧
    ApiAction.redirect "/auth/login" ∉ (responseErrorInterceptor 401 true lsEx .err).2.2 ∧
    (responseErrorInterceptor 401 true lsEx .err).1.access_token = some "acc" := by
  decide

/-- Claim C6, amended: the request interceptor attaches the Bearer access
token whenever one is stored; a 401 not yet retried with a refresh token
present issues one refresh and retries the original request once with the
new token; a second 401 after the retry is rejected with no further refresh
attempt, no token clearing and no redirect; the fatal path — clearing the
tokens and hard-redirecting to the login entry point — is taken when the
refresh call itself fails. -/
theorem interceptor_attach_refresh_retry (ls : LocalStorage) (tok rt acc : String)
    (htok : getAccessToken ls = some tok)
    (hrt : getRefreshToken ls = some rt) :
    (∀ auth, attachAuthHeader ls auth = some ("Bearer " ++ tok)) ∧
    responseErrorInterceptor 401 false ls (.ok acc) =
      (setTokens acc rt ls, true,
        [.refreshCall rt, .retryRequest ("Bearer " ++ acc)]) ∧
    (∀ outcome, responseErrorInterceptor 401 true ls outcome =
      (ls, true, [.rejectError])) ∧
    responseErrorInterceptor 401 false ls .err =
      (clearTokens ls, true,
        [.refreshCall rt, .redirect "/auth/login", .rejectError]) := by
  refine ⟨?_, ?_, ?_, ?_⟩
  · intro auth
    simp [attachAuthHeader, htok]
  · simp [responseErrorInterceptor, hrt]
  · intro outcome
    simp [responseErrorInterceptor, hrt]
  · simp [responseErrorInterceptor, hrt]

/-- Claim C6, witness: the amended statement evaluated on the concrete
snapshot. -/
theorem interceptor_attach_refresh_retry_witness :
    getAccessToken lsEx = some "acc" ∧ getRefreshToken lsEx = some "ref" ∧
    ((∀ auth, attachAuthHeader lsEx auth = some ("Bearer " ++ "acc")) ∧
     responseErrorInterceptor 401 false lsEx (.ok "newacc") =
       (setTokens "newacc" "ref" lsEx, true,
         [.refreshCall "ref", .retryRequest ("Bearer " ++ "newacc")]) ∧
     (∀ outcome, responseErrorInterceptor 401 true lsEx outcome =
       (lsEx, true, [.rejectError])) ∧
     responseErrorInterceptor 401 false lsEx .err =
       (clearTokens lsEx, true,
         [.refreshCall "ref", .redirect "/auth/login", .rejectError])) :=
  ⟨rfl, rfl, interceptor_attach_refresh_retry lsEx "acc" "ref" "newacc" rfl rfl⟩

/-! ## Claims about the two-factor view -/

/-- Claim C2, counterexample: with two attempts left and 100 seconds on the
countdown, a successful resend leaves the view with five attempts and a
300-second countdown — both are reset, not left unchanged. -/
theorem resend_changes_attempts_and_countdown :
    (resendCode tfMidView .ok).1.remainingAttempts = 5 ∧
    (resendCode tfMidView .ok).1.timeRemaining = 300 ∧
    (resendCode tfMidView .ok).1.remainingAttempts ≠ tfMidView.remainingAttempts ∧
    (resendCode tfMidView .ok).1.timeRemaining ≠ tfMidView.timeRemaining := by
  decide

/-- Claim C2, amended: a successful resend resets the resend cooldown to 60
seconds and also resets remainingAttempts to 5 and the expiry countdown to
300 seconds, clearing the entered code; a resend attempted while the
cooldown is still running is a local no-op with no network call. -/
theorem resend_resets_attempts_timer_cooldown (v : TwoFactorView) (t : String)
    (hcd : v.resendCooldown = 0) (ht : v.twoFactorToken = some t) :
    (resendCode v .ok).1.resendCooldown = 60 ∧
    (resendCode v .ok).1.remainingAttempts = 5 ∧
    (resendCode v .ok).1.timeRemaining = 300 ∧
    (resendCode v .ok).1.verificationCode = emptyCode ∧
    (resendCode v .ok).2 = [.resendRequest] ∧
    (∀ w : TwoFactorView, ∀ outcome, w.resendCooldown > 0 →
      resendCode w outcome = (w, [])) := by
  refine ⟨?_, ?_, ?_, ?_, ?_, ?_⟩
  · simp [resendCode, hcd, ht, clearErrorStates]
  · simp [resendCode, hcd, ht, clearErrorStates]
  · simp [resendCode, hcd, ht, clearErrorStates]
  · simp [resendCode, hcd, ht, clearErrorStates]
  · simp [resendCode, hcd, ht, clearErrorStates]
  · intro w outcome hw
    simp [resendCode, hw]

/-- Claim C2, witness: the amended statement evaluated on the mid-challenge
view. -/
theorem resend_resets_attempts_timer_cooldown_witness :
    tfMidView.resendCooldown = 0 ∧ tfMidView.twoFactorToken = some "challenge" ∧
    ((resendCode tfMidView .ok).1.resendCooldown = 60 ∧
     (resendCode tfMidView .ok).1.remainingAttempts = 5 ∧
     (resendCode tfMidView .ok).1.timeRemaining = 300 ∧
     (resendCode tfMidView .ok).1.verificationCode = emptyCode ∧
     (resendCode tfMidView .ok).2 = [.resendRequest] ∧
     (∀ w : TwoFactorView, ∀ outcome, w.resendCooldown > 0 →
       resendCode w outcome = (w, []))) :=
  ⟨rfl, rfl, resend_resets_attempts_timer_cooldown tfMidView "challenge" rfl rfl⟩

/-- Claim C3, counterexample: with remainingAttempts already at zero and a
freshly entered complete code, a further submission still issues the verify
network call — there is no local rejection once the counter reaches
zero. -/
theorem sixth_submission_still_calls_network :
    tfExhaustedView.remainingAttempts = 0 ∧
    ViewAction.verifyRequest ∈ (verifyCode tfExhaustedView (.invalidCode 0 none)).2 := by
  decide

/-- Claim C3, amended: after each rejection carrying a remainingAttempts
count, the view adopts exactly the server-reported value — hence the local
counter is non-increasing whenever the reported value does not exceed the
current one — but the view keeps no local guard: every submission passing
the completeness and re-entrancy checks issues the verify network call,
regardless of the current counter, including zero. -/
theorem verify_attempts_track_server (v : TwoFactorView) (r : Nat)
    (msg : Option String) (t : String)
    (hc : isCodeComplete v = true) (hl : v.isLoading = false)
    (ht : v.twoFactorToken = some t) :
    (verifyCode v (.invalidCode r msg)).1.remainingAttempts = r ∧
    (r ≤ v.remainingAttempts →
      (verifyCode v (.invalidCode r msg)).1.remainingAttempts ≤ v.remainingAttempts) ∧
    (∀ outcome, ViewAction.verifyRequest ∈ (verifyCode v outcome).2) := by
  refine ⟨?_, ?_, ?_⟩
  · simp [verifyCode, hc, hl, ht, clearMessages, clearErrorStates]
  · intro hr
    simpa [verifyCode, hc, hl, ht, clearMessages, clearErrorStates] using hr
  · intro outcome
    cases outcome <;> simp [verifyCode, hc, hl, ht, clearMessages, clearErrorStates]

/-- Claim C3, witness: the amended statement evaluated on the exhausted
view, whose counter is zero. -/
theorem verify_attempts_track_server_witness :
    isCodeComplete tfExhaustedView = true ∧ tfExhaustedView.isLoading = false ∧
    tfExhaustedView.twoFactorToken = some "challenge" ∧
    ((verifyCode tfExhaustedView (.invalidCode 0 none)).1.remainingAttempts = 0 ∧
     (0 ≤ tfExhaustedView.remainingAttempts →
       (verifyCode tfExhaustedView (.invalidCode 0 none)).1.remainingAttempts ≤
         tfExhaustedView.remainingAttempts) ∧
     (∀ outcome, ViewAction.verifyRequest ∈ (verifyCode tfExhaustedView outcome).2)) :=
  ⟨rfl, rfl, rfl,
    verify_attempts_track_server tfExhaustedView 0 none "challenge" rfl rfl rfl⟩

/-- Claim C5, counterexample: suppose the host sleeps after 10 delivered
ticks and resumes 400 wall-clock seconds after the countdown began.  The
code reports 290 seconds remaining, while recomputing against the current
time, as the claim states, would report the 300-second challenge as already
expired. -/
theorem countdown_ignores_wall_clock :
    (tfTimerRun 10 (tfInitView (some "challenge"))).timeRemaining = 290 ∧
    wallClockRemaining (tfInitView (some "challenge")).timeRemaining 400 = 0 ∧
    (tfTimerRun 10 (tfInitView (some "challenge"))).timeRemaining ≠
      wallClockRemaining (tfInitView (some "challenge")).timeRemaining 400 := by
  decide

/-- Claim C5, amended: the two-factor expiry countdown is a per-tick
decremented counter — after n delivered one-second ticks the remaining time
is exactly the initial value minus n, whatever wall-clock time actually
elapsed — so remaining time is not recomputed against the current time on
resume (the session timers are likewise fixed-duration timeouts scheduled
from the moment of activity). -/
theorem tf_countdown_counts_ticks_only (n : Nat) (v : TwoFactorView) :
    (tfTimerRun n v).timeRemaining = v.timeRemaining - n := by
  have tick : ∀ w : TwoFactorView,
      (tfTimerTick w).1.timeRemaining = w.timeRemaining - 1 := by
    intro w
    unfold tfTimerTick
    by_cases h : w.timeRemaining > 0
    · simp [h]
    · simp [h]
      omega
  induction n generalizing v with
  | zero => simp [tfTimerRun]
  | succ n ih =>
    simp only [tfTimerRun]
    rw [ih, tick]
    omega

/-! ## Claims about the session lifecycle -/

/-- A localStorage snapshot of a durable (rememberMe) session. -/
def lsDurable : LocalStorage :=
  { access_token := some "acc", refresh_token := some "ref",
    rememberMe := true, user := some "u" }

/-- An authenticated ephemeral store state with no timers yet. -/
def sActive : AuthStoreState :=
  { initStore with isAuthenticated := true }

/-- Claim C4, counterexample: in the idle ephemeral run from login to
timeout, no session-warning event is ever dispatched on the bus — the
warning callback only raises an internal flag and logs — so the claimed
warning event is published zero times, not exactly once. -/
theorem no_session_warning_event_published :
    countEvent (runUntil 4 (15 * 60 * 1000) (ephemeralWorld "alice" "acc" "ref")).2
      (.dispatchBusEvent "session-warning") = 0 ∧
    countEvent (runUntil 4 (15 * 60 * 1000) (ephemeralWorld "alice" "acc" "ref")).2
      (.dispatchBusEvent "session-warning") ≠ 1 := by
  decide

/-- Claim C4, amended: in an ephemeral session with no qualifying activity,
the warning callback runs exactly once at timeoutDuration minus 2 minutes,
raising the warning flag and logging (no session-warning event is published
on the bus); with nothing intervening, the session-timeout event is
published exactly once at timeoutDuration and the token store is empty
afterward. -/
theorem ephemeral_idle_run_events :
    (runUntil 4 (15 * 60 * 1000) (ephemeralWorld "alice" "acc" "ref")).2 =
      [.consoleLog "Session warning activated - 2 minutes remaining",
       .consoleLog "Session timeout triggered", .remoteLogout,
       .dispatchBusEvent "session-timeout"] ∧
    countEvent (runUntil 4 (15 * 60 * 1000) (ephemeralWorld "alice" "acc" "ref")).2
      (.consoleLog "Session warning activated - 2 minutes remaining") = 1 ∧
    countEvent (runUntil 4 (15 * 60 * 1000) (ephemeralWorld "alice" "acc" "ref")).2
      (.dispatchBusEvent "session-timeout") = 1 ∧
    (runUntil 4 (15 * 60 * 1000) (ephemeralWorld "alice" "acc" "ref")).1.ls.access_token = none ∧
    (runUntil 4 (15 * 60 * 1000) (ephemeralWorld "alice" "acc" "ref")).1.ls.refresh_token = none := by
  decide

/-- Claim C7: durable (rememberMe) sessions never start the warning or
timeout timers, so no callback ever fires: the idle run leaves the world
untouched and emits no actions — no session-warning, no session-timeout —
however far model time advances. -/
theorem durable_sessions_never_time_out (now tEnd fuel : Nat)
    (ls : LocalStorage) (s : AuthStoreState) (w : World)
    (hrm : ls.rememberMe = true) (hw : w.store = startSessionTimers now ls s) :
    (startSessionTimers now ls s).sessionWarningTimer = none ∧
    (startSessionTimers now ls s).sessionTimer = none ∧
    runUntil fuel tEnd w = (w, []) := by
  have h1 : startSessionTimers now ls s = clearSessionTimers s := by
    simp [startSessionTimers, hrm]
  refine ⟨by simp [h1, clearSessionTimers], by simp [h1, clearSessionTimers], ?_⟩
  cases fuel with
  | zero => rfl
  | succ fuel => simp [runUntil, earliestDue, hw, h1, clearSessionTimers]

/-- Claim C7, witness: a durable login world idles across a year of model
time with no actions. -/
theorem durable_sessions_never_time_out_witness :
    lsDurable.rememberMe = true ∧
    ((startSessionTimers 0 lsDurable initStore).sessionWarningTimer = none ∧
     (startSessionTimers 0 lsDurable initStore).sessionTimer = none ∧
     runUntil 2 (1000 * 60 * 60 * 24 * 365)
        { store := startSessionTimers 0 lsDurable initStore, ls := lsDurable,
          ss := { user := some "u" } } =
       ({ store := startSessionTimers 0 lsDurable initStore, ls := lsDurable,
          ss := { user := some "u" } }, [])) :=
  ⟨rfl,
    durable_sessions_never_time_out 0 (1000 * 60 * 60 * 24 * 365) 2 lsDurable
      initStore
      { store := startSessionTimers 0 lsDurable initStore, ls := lsDurable,
        ss := { user := some "u" } }
      rfl rfl⟩

/-- Claim C8: logout from any world tears down both timers, clears the
token pair, the cached user in both storage partitions and the store user,
and dispatches the session-timeout bus event exactly when the isTimeout
argument is true — voluntary logout publishes nothing. -/
theorem logout_clears_state_and_signals_iff_timeout (w : World) (b : Bool) :
    (logout b w).1.ls.access_token = none ∧
    (logout b w).1.ls.refresh_token = none ∧
    (logout b w).1.ls.user = none ∧
    (logout b w).1.ss.user = none ∧
    (logout b w).1.store.user = none ∧
    (logout b w).1.store.isAuthenticated = false ∧
    (logout b w).1.store.sessionTimer = none ∧
    (logout b w).1.store.sessionWarningTimer = none ∧
    (StoreAction.dispatchBusEvent "session-timeout" ∈ (logout b w).2 ↔ b = true) := by
  cases b <;>
    simp [logout, clearAuthState, clearSessionTimers, clearTokens]

/-- Claim C9: on an authenticated ephemeral session, a qualifying activity
event resets both timers from now exactly when the warning period has not
begun — once the warning flag is up the handler leaves the state untouched —
while the explicit reset action restarts both timers and lowers the warning
flag regardless. -/
theorem activity_resets_timers_iff_not_warning (now : Nat) (ls : LocalStorage)
    (s : AuthStoreState) (hauth : s.isAuthenticated = true)
    (hrm : ls.rememberMe = false) :
    (s.sessionWarningActive = false →
      (handleUserActivity now ls s).sessionWarningTimer = some (now + 13 * 60 * 1000) ∧
      (handleUserActivity now ls s).sessionTimer = some (now + s.sessionTimeout) ∧
      (handleUserActivity now ls s).lastActivity = now) ∧
    (s.sessionWarningActive = true → handleUserActivity now ls s = s) ∧
    ((resetSessionTimers now ls s).sessionWarningActive = false ∧
     (resetSessionTimers now ls s).sessionWarningTimer = some (now + 13 * 60 * 1000) ∧
     (resetSessionTimers now ls s).sessionTimer = some (now + s.sessionTimeout)) := by
  refine ⟨?_, ?_, ?_⟩
  · intro hwarn
    simp [handleUserActivity, hauth, hwarn, resetSessionTimers,
          startSessionTimers, clearSessionTimers, hrm]
  · intro hwarn
    simp [handleUserActivity, hwarn]
  · simp [resetSessionTimers, hauth, startSessionTimers, clearSessionTimers, hrm]

/-- Claim C9, witness: the statement evaluated on an authenticated
ephemeral store at model time 42. -/
theorem activity_resets_timers_iff_not_warning_witness :
    sActive.isAuthenticated = true ∧ lsEx.rememberMe = false ∧
    ((sActive.sessionWarningActive = false →
      (handleUserActivity 42 lsEx sActive).sessionWarningTimer = some (42 + 13 * 60 * 1000) ∧
      (handleUserActivity 42 lsEx sActive).sessionTimer = some (42 + sActive.sessionTimeout) ∧
      (handleUserActivity 42 lsEx sActive).lastActivity = 42) ∧
    (sActive.sessionWarningActive = true → handleUserActivity 42 lsEx sActive = sActive) ∧
    ((resetSessionTimers 42 lsEx sActive).sessionWarningActive = false ∧
     (resetSessionTimers 42 lsEx sActive).sessionWarningTimer = some (42 + 13 * 60 * 1000) ∧
     (resetSessionTimers 42 lsEx sActive).sessionTimer = some (42 + sActive.sessionTimeout))) :=
  ⟨rfl, rfl, activity_resets_timers_iff_not_warning 42 lsEx sActive rfl rfl⟩

/-- Claim C10: on a successful login the service writes both tokens to
localStorage whatever the rememberMe mode; only the cached user record is
partitioned (sessionStorage for ephemeral, localStorage for durable); a
successful 2FA verification and a successful interceptor refresh likewise
write the tokens straight to localStorage. -/
theorem tokens_written_to_localStorage_unconditionally
    (mode : Bool) (a r uj : String) (resp : LoginResponse) (w : World)
    (now : Nat) (t2user : Option String) (ls2 : LocalStorage) (rt : String)
    (h2fa : resp.requires2FA = false) (ha : resp.access = some a)
    (hr : resp.refresh = some r) (hrt : getRefreshToken ls2 = some rt) :
    ((fullLogin mode resp uj now w).ls.access_token = some a ∧
     (fullLogin mode resp uj now w).ls.refresh_token = some r) ∧
    ((fullLogin false resp uj now w).ss.user = some uj ∧
     (fullLogin false resp uj now w).ls.user = w.ls.user ∧
     (fullLogin true resp uj now w).ls.user = some uj) ∧
    ((serviceVerifyTwoFactor
        { access := some a, refresh := some r, user := t2user } ls2).access_token = some a ∧
     (serviceVerifyTwoFactor
        { access := some a, refresh := some r, user := t2user } ls2).refresh_token = some r) ∧
    (responseErrorInterceptor 401 false ls2 (.ok a)).1.access_token = some a := by
  refine ⟨?_, ?_, ?_, ?_⟩
  · cases mode <;>
      simp [fullLogin, serviceLogin, storeLoginSuccess, setTokens, h2fa, ha, hr]
  · simp [fullLogin, serviceLogin, storeLoginSuccess, setTokens, h2fa, ha, hr]
  · simp [serviceVerifyTwoFactor]
  · simp [responseErrorInterceptor, hrt, setTokens]

/-- Claim C10, witness: the statement evaluated on a concrete
authenticated login response in both modes. -/
theorem tokens_written_to_localStorage_unconditionally_witness :
    (LoginResponse.requires2FA
        { requires2FA := false, twoFactorToken := none, access := some "a1",
          refresh := some "r1", user := some "alice" } = false) ∧
    ((fullLogin false
        { requires2FA := false, twoFactorToken := none, access := some "a1",
          refresh := some "r1", user := some "alice" } "alice" 0 initWorld).ls.access_token
      = some "a1") ∧
    ((fullLogin false
        { requires2FA := false, twoFactorToken := none, access := some "a1",
          refresh := some "r1", user := some "alice" } "alice" 0 initWorld).ss.user
      = some "alice") ∧
    ((serviceVerifyTwoFactor
        { access := some "a1", refresh := some "r1", user := some "alice" }
        lsEx).access_token = some "a1") ∧
    ((responseErrorInterceptor 401 false lsEx (.ok "a1")).1.access_token = some "a1") := by
  have h := tokens_written_to_localStorage_unconditionally false "a1" "r1" "alice"
    { requires2FA := false, twoFactorToken := none, access := some "a1",
      refresh := some "r1", user := some "alice" }
    initWorld 0 (some "alice") lsEx "ref" rfl rfl rfl rfl
  exact ⟨rfl, h.1.1, h.2.1.1, h.2.2.1.1, h.2.2.2⟩

end ComplianceAuth
